import Mathlib

/-!
Verification of the audio merge-and-tag pipeline (`audio_processor.py`).

The two operations, `merge_audio_files` and `add_metadata_to_audio`, are
embedded as pure Lean functions.  Interaction with the outside world
(the ffmpeg subprocess, the eyed3 library calls that can fail) is made
explicit through environment parameters describing each fallible step's
outcome; the functions return a record of every observable effect:
status/progress callback invocations in order, the manifest written for
the concat demuxer, the subprocess command issued, manifest cleanup, and
the final result or error.
-/

/-- Outcome of `subprocess.run(command, capture_output=True, text=True, check=True)`:
it either returns normally (exit code 0), raises `CalledProcessError`
carrying the process stderr (non-zero exit), or raises `FileNotFoundError`
(executable absent). -/
inductive SubprocessOutcome : Type
  | success : SubprocessOutcome
  | calledProcessError (stderr : String) : SubprocessOutcome
  | fileNotFound : SubprocessOutcome
deriving DecidableEq

/-- The Python exception kinds `merge_audio_files` can raise: `ValueError`
(empty input, or ffmpeg failure) and `RuntimeError` (ffmpeg missing). -/
inductive MergeError : Type
  | valueError (msg : String) : MergeError
  | runtimeError (msg : String) : MergeError
deriving DecidableEq

/-- One observation on the callback side-channel: a status-callback call or a
progress-callback call with its fraction. -/
inductive Event : Type
  | status (msg : String) : Event
  | progress (q : ℚ) : Event
deriving DecidableEq

/-- Every observable effect of one `merge_audio_files` call. -/
structure MergeResult : Type where
  events : List Event
  manifestWritten : Bool
  manifestLines : List String
  command : Option (List String)
  manifestDeleted : Bool
  outcome : Except MergeError String

/-- `if status_callback: status_callback(msg)`. -/
def statusEvents (hasStatus : Bool) (msg : String) : List Event :=
  if hasStatus then [Event.status msg] else []

/-- `if progress_callback: progress_callback(q)`. -/
def progressEvents (hasProgress : Bool) (q : ℚ) : List Event :=
  if hasProgress then [Event.progress q] else []

/-- The ffmpeg invocation built by `merge_audio_files`:
`['ffmpeg', '-f', 'concat', '-safe', '0', '-i', temp_list_path, '-b:a', '192k', '-y', output_path]`. -/
def ffmpegCommand (temp_list_path output_path : String) : List String :=
  ["ffmpeg", "-f", "concat", "-safe", "0", "-i", temp_list_path,
   "-b:a", "192k", "-y", output_path]

/-- The message raised when ffmpeg is not installed or not in PATH. -/
def ffmpegNotFoundMsg : String :=
  "ffmpeg not found. Please ensure ffmpeg is installed and in your system's PATH."

/-- `merge_audio_files(file_paths, output_path, status_callback, progress_callback)`.

`hasStatus` / `hasProgress` record whether the optional callbacks were
supplied; `env` is the outcome of the single `subprocess.run` call;
`temp_list_path` is the name `tempfile.NamedTemporaryFile` produced for the
manifest.  The translation follows the source line by line: the empty-list
guard raises `ValueError` before anything else; the manifest is written with
one `file '<path>'` line per source in order; the try/except/finally around
the subprocess maps each outcome to its events and exception, and the
`finally` block deletes the manifest in every branch. -/
def merge_audio_files (file_paths : List String) (output_path : String)
    (hasStatus hasProgress : Bool) (env : SubprocessOutcome)
    (temp_list_path : String) : MergeResult :=
  if file_paths.isEmpty then
    { events := [], manifestWritten := false, manifestLines := [],
      command := none, manifestDeleted := false,
      outcome := Except.error (MergeError.valueError "No files provided for merging") }
  else
    let pre : List Event :=
      statusEvents hasStatus "Starting audio file merging..." ++
      progressEvents hasProgress (1/10) ++
      statusEvents hasStatus "Generated file list for merging..." ++
      progressEvents hasProgress (3/10)
    let lines : List String := file_paths.map (fun p => "file '" ++ p ++ "'")
    let cmd : List String := ffmpegCommand temp_list_path output_path
    let running : List Event :=
      statusEvents hasStatus "Running ffmpeg to merge files... This may take a moment."
    match env with
    | SubprocessOutcome.success =>
      { events := pre ++ running ++
          statusEvents hasStatus "ffmpeg process completed." ++
          progressEvents hasProgress (9/10) ++
          statusEvents hasStatus "Exporting merged audio as MP3..." ++
          progressEvents hasProgress 1,
        manifestWritten := true, manifestLines := lines, command := some cmd,
        manifestDeleted := true,
        outcome := Except.ok output_path }
    | SubprocessOutcome.calledProcessError stderr =>
      { events := pre ++ running ++
          statusEvents hasStatus ("ffmpeg error: " ++ stderr),
        manifestWritten := true, manifestLines := lines, command := some cmd,
        manifestDeleted := true,
        outcome := Except.error (MergeError.valueError ("ffmpeg error: " ++ stderr)) }
    | SubprocessOutcome.fileNotFound =>
      { events := pre ++ running ++
          statusEvents hasStatus ffmpegNotFoundMsg,
        manifestWritten := true, manifestLines := lines, command := some cmd,
        manifestDeleted := true,
        outcome := Except.error (MergeError.runtimeError ffmpegNotFoundMsg) }

/-- The fractions handed to the progress callback, in order. -/
def progressSeq (r : MergeResult) : List ℚ :=
  r.events.filterMap (fun e =>
    match e with
    | Event.progress q => some q
    | Event.status _ => none)

/-- An ID3 `images` entry as set by `tag.images.set(type, data, mime, description)`. -/
structure ImageFrame : Type where
  picType : ℕ
  data : List ℕ
  mimeType : String
  description : String
deriving DecidableEq

/-- `images.set` replaces any frame of the same picture type and appends the
new frame. -/
def imagesSet (frames : List ImageFrame) (picType : ℕ) (data : List ℕ)
    (mime desc : String) : List ImageFrame :=
  frames.filter (fun f => f.picType != picType) ++ [⟨picType, data, mime, desc⟩]

/-- The tag slots of an eyed3 ID3 tag that the program can touch.  `none`
means the slot is absent from the tag entirely (no frame), not empty text. -/
structure Tag : Type where
  title : Option String
  artist : Option String
  album : Option String
  recording_date : Option String
  comment : Option String
  images : List ImageFrame
deriving DecidableEq

/-- The tag `audiofile.initTag()` creates: every slot absent. -/
def emptyTag : Tag := ⟨none, none, none, none, none, []⟩

/-- The metadata dict handed to `add_metadata_to_audio`: five optional
fields.  The caller (`app.py`) always fills all five keys, using `""` for
blank text inputs and `None` for a missing cover, so `none` and `some ""`
are both possible encodings of an unset text field. -/
structure Metadata : Type where
  title : Option String
  artist : Option String
  album : Option String
  year : Option String
  cover_image : Option (List ℕ)
deriving DecidableEq

/-- Python truthiness of `metadata.get(key)` for a text field: missing keys
and empty strings are falsy. -/
def truthyStr : Option String → Bool
  | none => false
  | some s => s != ""

/-- Python truthiness of `metadata.get("cover_image")`: `None` and empty
byte strings are falsy. -/
def truthyBytes : Option (List ℕ) → Bool
  | none => false
  | some b => !b.isEmpty

/-- Outcome of `eyed3.load(audio_path)` followed by the tag access: either
the whole attempt blows up (load raises, or returns `None` so that
`audiofile.tag` raises `AttributeError` with message `msg`), or it yields a
file whose existing tag state is `existingTag` (`none` meaning the container
has no tag yet, so `initTag()` runs). -/
inductive LoadOutcome : Type
  | failure (msg : String) : LoadOutcome
  | loaded (existingTag : Option Tag) : LoadOutcome
deriving DecidableEq

/-- Environment for one `add_metadata_to_audio` call: the load outcome,
whether eyed3 accepts the year string as a `recording_date` (malformed
dates raise), and whether `tag.save()` raises (with message). -/
structure MetaEnv : Type where
  load : LoadOutcome
  yearOk : Bool
  saveError : Option String
deriving DecidableEq

/-- Every observable effect of one `add_metadata_to_audio` call: the value
returned to the caller, the error text printed to stdout (if any), and the
tag state persisted to the file (`none` when save never succeeded). -/
structure MetaResult : Type where
  returned : String
  printedError : Option String
  saved : Option Tag
deriving DecidableEq

/-- `add_metadata_to_audio(audio_path, metadata)`.

Line-by-line translation: the whole body sits inside
`try: ... except Exception as e: print(f"Error adding metadata: ...")`
and the function ends with `return audio_path` outside the try, so every
failure is printed and the path is returned regardless.  Each field is set
only when its dict value is truthy; the year assignment has its own inner
`try/except: pass`; the cover is stored with picture type 3, mime
`image/jpeg`, description `Cover`; finally `tag.save()` persists. -/
def add_metadata_to_audio (audio_path : String) (metadata : Metadata)
    (env : MetaEnv) : MetaResult :=
  match env.load with
  | LoadOutcome.failure msg =>
    { returned := audio_path,
      printedError := some ("Error adding metadata: " ++ msg),
      saved := none }
  | LoadOutcome.loaded existing =>
    let tag0 := existing.getD emptyTag
    let tag1 := if truthyStr metadata.title then
        { tag0 with title := metadata.title } else tag0
    let tag2 := if truthyStr metadata.artist then
        { tag1 with artist := metadata.artist } else tag1
    let tag3 := if truthyStr metadata.album then
        { tag2 with album := metadata.album } else tag2
    let tag4 := if truthyStr metadata.year then
        (if env.yearOk then { tag3 with recording_date := metadata.year } else tag3)
      else tag3
    let tag5 := if truthyBytes metadata.cover_image then
        { tag4 with images :=
            imagesSet tag4.images 3 (metadata.cover_image.getD []) "image/jpeg" "Cover" }
      else tag4
    match env.saveError with
    | some msg =>
      { returned := audio_path,
        printedError := some ("Error adding metadata: " ++ msg),
        saved := none }
    | none =>
      { returned := audio_path, printedError := none, saved := some tag5 }

/-- C6: merging an empty input list fails with the configuration `ValueError`
before any I/O — no callback fires, no manifest is written, no subprocess
command is issued, hence no output file is created. -/
theorem empty_input_fails_before_io (out tmp : String) (hs hp : Bool)
    (env : SubprocessOutcome) :
    (merge_audio_files [] out hs hp env tmp).outcome =
      Except.error (MergeError.valueError "No files provided for merging") ∧
    (merge_audio_files [] out hs hp env tmp).manifestWritten = false ∧
    (merge_audio_files [] out hs hp env tmp).command = none ∧
    (merge_audio_files [] out hs hp env tmp).events = [] :=
  ⟨rfl, rfl, rfl, rfl⟩

/-- C10: for every non-empty input list the temporary manifest is written and
then deleted again before `merge_audio_files` returns or raises, in all three
subprocess outcomes alike (the `finally` block). -/
theorem manifest_always_cleaned_up (fp : List String) (out tmp : String)
    (hs hp : Bool) (env : SubprocessOutcome) (h : fp ≠ []) :
    (merge_audio_files fp out hs hp env tmp).manifestWritten = true ∧
    (merge_audio_files fp out hs hp env tmp).manifestDeleted = true := by
  cases fp with
  | nil => exact absurd rfl h
  | cons a as => cases env <;> exact ⟨rfl, rfl⟩

theorem manifest_always_cleaned_up_witness :
    ["a.mp3"] ≠ ([] : List String) ∧
    ((merge_audio_files ["a.mp3"] "out.mp3" true true
        SubprocessOutcome.fileNotFound "list.txt").manifestWritten = true ∧
      (merge_audio_files ["a.mp3"] "out.mp3" true true
        SubprocessOutcome.fileNotFound "list.txt").manifestDeleted = true) :=
  ⟨by decide, manifest_always_cleaned_up ["a.mp3"] "out.mp3" "list.txt" true true
    SubprocessOutcome.fileNotFound (by decide)⟩

/-- C5: a missing external tool raises `RuntimeError` while a present tool
exiting non-zero raises `ValueError` — two distinct exception kinds — and the
latter's message is a prefix `"ffmpeg error: "` followed by the tool's stderr
verbatim. -/
theorem tool_missing_distinct_from_tool_failed (fp : List String)
    (out tmp stderr : String) (hs hp : Bool) (h : fp ≠ []) :
    (merge_audio_files fp out hs hp (SubprocessOutcome.calledProcessError stderr)
        tmp).outcome =
      Except.error (MergeError.valueError ("ffmpeg error: " ++ stderr)) ∧
    (merge_audio_files fp out hs hp SubprocessOutcome.fileNotFound tmp).outcome =
      Except.error (MergeError.runtimeError ffmpegNotFoundMsg) ∧
    (∀ s t : String, MergeError.valueError s ≠ MergeError.runtimeError t) ∧
    (∃ pre : String, "ffmpeg error: " ++ stderr = pre ++ stderr) := by
  cases fp with
  | nil => exact absurd rfl h
  | cons a as =>
    exact ⟨rfl, rfl, fun s t hst => MergeError.noConfusion hst,
      ⟨"ffmpeg error: ", rfl⟩⟩

theorem tool_missing_distinct_from_tool_failed_witness :
    ["a.mp3"] ≠ ([] : List String) ∧
    ((merge_audio_files ["a.mp3"] "out.mp3" false false
        (SubprocessOutcome.calledProcessError "boom") "list.txt").outcome =
      Except.error (MergeError.valueError ("ffmpeg error: " ++ "boom")) ∧
    (merge_audio_files ["a.mp3"] "out.mp3" false false
        SubprocessOutcome.fileNotFound "list.txt").outcome =
      Except.error (MergeError.runtimeError ffmpegNotFoundMsg) ∧
    (∀ s t : String, MergeError.valueError s ≠ MergeError.runtimeError t) ∧
    (∃ pre : String, "ffmpeg error: " ++ "boom" = pre ++ "boom")) :=
  ⟨by decide, tool_missing_distinct_from_tool_failed ["a.mp3"] "out.mp3" "list.txt"
    "boom" false false (by decide)⟩

/-- C9: for every non-empty input list the manifest holds exactly one line
`file '<path>'` per source in input order, and the subprocess command selects
the concat demuxer (`-f concat`), unsafe-path mode (`-safe 0`), a 192k audio
bitrate (`-b:a 192k`) and overwrite-on-exists (`-y`); subprocess exit code 0
(the `success` outcome) makes the merge return the output path. -/
theorem manifest_and_command_shape (fp : List String) (out tmp : String)
    (hs hp : Bool) (env : SubprocessOutcome) (h : fp ≠ []) :
    (merge_audio_files fp out hs hp env tmp).manifestLines =
      fp.map (fun p => "file '" ++ p ++ "'") ∧
    (merge_audio_files fp out hs hp env tmp).command =
      some ["ffmpeg", "-f", "concat", "-safe", "0", "-i", tmp,
            "-b:a", "192k", "-y", out] ∧
    (env = SubprocessOutcome.success →
      (merge_audio_files fp out hs hp env tmp).outcome = Except.ok out) := by
  cases fp with
  | nil => exact absurd rfl h
  | cons a as =>
    refine ⟨?_, ?_, ?_⟩
    · cases env <;> rfl
    · cases env <;> rfl
    · intro he
      subst he
      rfl

theorem manifest_and_command_shape_witness :
    ["a.mp3", "b.wav"] ≠ ([] : List String) ∧
    ((merge_audio_files ["a.mp3", "b.wav"] "out.mp3" true true
        SubprocessOutcome.success "list.txt").manifestLines =
      ["a.mp3", "b.wav"].map (fun p => "file '" ++ p ++ "'") ∧
    (merge_audio_files ["a.mp3", "b.wav"] "out.mp3" true true
        SubprocessOutcome.success "list.txt").command =
      some ["ffmpeg", "-f", "concat", "-safe", "0", "-i", "list.txt",
            "-b:a", "192k", "-y", "out.mp3"] ∧
    (SubprocessOutcome.success = SubprocessOutcome.success →
      (merge_audio_files ["a.mp3", "b.wav"] "out.mp3" true true
        SubprocessOutcome.success "list.txt").outcome = Except.ok "out.mp3")) :=
  ⟨by decide, manifest_and_command_shape ["a.mp3", "b.wav"] "out.mp3" "list.txt"
    true true SubprocessOutcome.success (by decide)⟩

/-- C8: applying a record with only `title` set (to non-empty text, the
code's notion of a provided field) to a fresh container yields a persisted
tag whose title slot is exactly that text and whose artist, album,
recording-date, comment and image slots are all absent. -/
theorem title_only_applied_exactly (p s : String) (yk : Bool) (h : s ≠ "") :
    (add_metadata_to_audio p ⟨some s, none, none, none, none⟩
        ⟨LoadOutcome.loaded none, yk, none⟩).saved =
      some ⟨some s, none, none, none, none, []⟩ ∧
    (add_metadata_to_audio p ⟨some s, none, none, none, none⟩
        ⟨LoadOutcome.loaded none, yk, none⟩).returned = p := by
  constructor
  · simp [add_metadata_to_audio, truthyStr, truthyBytes, emptyTag, h]
  · rfl

theorem title_only_applied_exactly_witness :
    "My Title" ≠ "" ∧
    ((add_metadata_to_audio "out.mp3" ⟨some "My Title", none, none, none, none⟩
        ⟨LoadOutcome.loaded none, true, none⟩).saved =
      some ⟨some "My Title", none, none, none, none, []⟩ ∧
    (add_metadata_to_audio "out.mp3" ⟨some "My Title", none, none, none, none⟩
        ⟨LoadOutcome.loaded none, true, none⟩).returned = "out.mp3") :=
  ⟨by decide, title_only_applied_exactly "out.mp3" "My Title" true (by decide)⟩

/-- C7: when eyed3 rejects the year value (`yearOk = false`, the inner
`try/except: pass`), tagging does not abort: title, artist, album and cover
are still applied exactly when provided, the tag is persisted, and only the
recording-date slot is absent. -/
theorem malformed_year_skipped_rest_applied (p : String) (m : Metadata)
    (h : truthyStr m.year = true) :
    (add_metadata_to_audio p m ⟨LoadOutcome.loaded none, false, none⟩).saved =
      some ⟨(if truthyStr m.title then m.title else none),
            (if truthyStr m.artist then m.artist else none),
            (if truthyStr m.album then m.album else none),
            none, none,
            (if truthyBytes m.cover_image then
              [⟨3, m.cover_image.getD [], "image/jpeg", "Cover"⟩] else [])⟩ ∧
    (add_metadata_to_audio p m ⟨LoadOutcome.loaded none, false, none⟩).returned
      = p := by
  cases ht : truthyStr m.title <;> cases ha : truthyStr m.artist <;>
    cases hb : truthyStr m.album <;> cases hc : truthyBytes m.cover_image <;>
    simp [add_metadata_to_audio, imagesSet, emptyTag, ht, ha, hb, hc, h]

theorem malformed_year_skipped_rest_applied_witness :
    truthyStr (some "not-a-date") = true ∧
    ((add_metadata_to_audio "out.mp3"
        ⟨some "T", some "A", some "L", some "not-a-date", some [7, 8]⟩
        ⟨LoadOutcome.loaded none, false, none⟩).saved =
      some ⟨(if truthyStr (some "T") then some "T" else none),
            (if truthyStr (some "A") then some "A" else none),
            (if truthyStr (some "L") then some "L" else none),
            none, none,
            (if truthyBytes (some [7, 8]) then
              [⟨3, (some [7, 8]).getD [], "image/jpeg", "Cover"⟩] else [])⟩ ∧
    (add_metadata_to_audio "out.mp3"
        ⟨some "T", some "A", some "L", some "not-a-date", some [7, 8]⟩
        ⟨LoadOutcome.loaded none, false, none⟩).returned = "out.mp3") :=
  ⟨by decide, malformed_year_skipped_rest_applied "out.mp3"
    ⟨some "T", some "A", some "L", some "not-a-date", some [7, 8]⟩ (by decide)⟩

/-- C1 counterexample: at a concrete save failure and a concrete open
failure, `add_metadata_to_audio` still returns the path normally and only
prints a message — neither hard failure is reported to the caller as an
error, contradicting the claim that they are never swallowed. -/
theorem metadata_hard_failures_swallowed :
    (add_metadata_to_audio "out.mp3" ⟨some "T", none, none, none, none⟩
        ⟨LoadOutcome.loaded none, true, some "save failed"⟩).returned = "out.mp3" ∧
    (add_metadata_to_audio "out.mp3" ⟨some "T", none, none, none, none⟩
        ⟨LoadOutcome.loaded none, true, some "save failed"⟩).saved = none ∧
    (add_metadata_to_audio "out.mp3" ⟨some "T", none, none, none, none⟩
        ⟨LoadOutcome.loaded none, true, some "save failed"⟩).printedError =
      some ("Error adding metadata: " ++ "save failed") ∧
    (add_metadata_to_audio "out.mp3" ⟨some "T", none, none, none, none⟩
        ⟨LoadOutcome.failure "open failed", true, none⟩).returned = "out.mp3" ∧
    (add_metadata_to_audio "out.mp3" ⟨some "T", none, none, none, none⟩
        ⟨LoadOutcome.failure "open failed", true, none⟩).saved = none :=
  ⟨rfl, rfl, rfl, rfl, rfl⟩

/-- C1 amended: no failure of `add_metadata_to_audio` reaches the caller.
The blanket `except` absorbs container-open and save failures alike: the
function always returns the input path, and nothing is persisted exactly
when an error message was printed instead. -/
theorem metadata_errors_never_reach_caller (p : String) (m : Metadata)
    (env : MetaEnv) :
    (add_metadata_to_audio p m env).returned = p ∧
    ((add_metadata_to_audio p m env).saved = none ↔
      (add_metadata_to_audio p m env).printedError.isSome = true) := by
  rcases env with ⟨load, yk, se⟩
  cases load <;> cases se <;> simp [add_metadata_to_audio]

/-- C2 counterexample: a concrete successful merge-and-tag run persists a
tag whose comment slot is absent — no "Created with Audio Merger" comment
is ever embedded, contradicting the claim that it always is. -/
theorem comment_tag_absent_counterexample :
    (merge_audio_files ["a.mp3"] "out.mp3" false false SubprocessOutcome.success
        "list.txt").outcome = Except.ok "out.mp3" ∧
    Option.map Tag.comment
      (add_metadata_to_audio "out.mp3" ⟨some "T", none, none, none, none⟩
        ⟨LoadOutcome.loaded none, true, none⟩).saved = some none ∧
    (none : Option String) ≠ some "Created with Audio Merger" :=
  ⟨rfl, rfl, by simp⟩

/-- C2 amended: every successful merge returns an output produced by an
ffmpeg command that requests a 192k audio bitrate, and the tagger never
writes a comment slot: any tag persisted from a fresh container leaves
the comment absent, whatever user metadata was supplied. -/
theorem output_bitrate_and_no_comment_tag (fp : List String) (out tmp p : String)
    (hs hp yk : Bool) (m : Metadata) (h : fp ≠ []) :
    (merge_audio_files fp out hs hp SubprocessOutcome.success tmp).outcome =
      Except.ok out ∧
    (merge_audio_files fp out hs hp SubprocessOutcome.success tmp).command =
      some ["ffmpeg", "-f", "concat", "-safe", "0", "-i", tmp,
            "-b:a", "192k", "-y", out] ∧
    Option.map Tag.comment
      (add_metadata_to_audio p m ⟨LoadOutcome.loaded none, yk, none⟩).saved =
      some none := by
  cases fp with
  | nil => exact absurd rfl h
  | cons a as =>
    refine ⟨rfl, rfl, ?_⟩
    cases ht : truthyStr m.title <;> cases ha : truthyStr m.artist <;>
      cases hb : truthyStr m.album <;> cases hy : truthyStr m.year <;>
      cases yk <;> cases hc : truthyBytes m.cover_image <;>
      simp [add_metadata_to_audio, imagesSet, emptyTag, ht, ha, hb, hy, hc]

theorem output_bitrate_and_no_comment_tag_witness :
    ["a.mp3"] ≠ ([] : List String) ∧
    ((merge_audio_files ["a.mp3"] "out.mp3" true true SubprocessOutcome.success
        "list.txt").outcome = Except.ok "out.mp3" ∧
    (merge_audio_files ["a.mp3"] "out.mp3" true true SubprocessOutcome.success
        "list.txt").command =
      some ["ffmpeg", "-f", "concat", "-safe", "0", "-i", "list.txt",
            "-b:a", "192k", "-y", "out.mp3"] ∧
    Option.map Tag.comment
      (add_metadata_to_audio "out.mp3" ⟨some "T", none, none, none, none⟩
        ⟨LoadOutcome.loaded none, true, none⟩).saved = some none) :=
  ⟨by decide, output_bitrate_and_no_comment_tag ["a.mp3"] "out.mp3" "list.txt"
    "out.mp3" true true true ⟨some "T", none, none, none, none⟩ (by decide)⟩

/-- On a successful subprocess run the progress callback receives exactly
0.1, 0.3, 0.9, 1.0. -/
theorem progressSeq_cons_success (a : String) (as : List String)
    (out tmp : String) (hs : Bool) :
    progressSeq (merge_audio_files (a :: as) out hs true
      SubprocessOutcome.success tmp) = [1/10, 3/10, 9/10, 1] := by
  cases hs <;> simp [progressSeq, merge_audio_files, statusEvents, progressEvents]

/-- When the subprocess exits non-zero the progress callback receives
exactly 0.1, 0.3 before the exception unwinds. -/
theorem progressSeq_cons_cpe (a : String) (as : List String)
    (out tmp stderr : String) (hs : Bool) :
    progressSeq (merge_audio_files (a :: as) out hs true
      (SubprocessOutcome.calledProcessError stderr) tmp) = [1/10, 3/10] := by
  cases hs <;> simp [progressSeq, merge_audio_files, statusEvents, progressEvents]

/-- When the tool is absent the progress callback receives exactly
0.1, 0.3 before the exception unwinds. -/
theorem progressSeq_cons_fnf (a : String) (as : List String)
    (out tmp : String) (hs : Bool) :
    progressSeq (merge_audio_files (a :: as) out hs true
      SubprocessOutcome.fileNotFound tmp) = [1/10, 3/10] := by
  cases hs <;> simp [progressSeq, merge_audio_files, statusEvents, progressEvents]

/-- On success the very last observable callback event is the 1.0 progress
emission: it follows the "ffmpeg process completed." status, and no status
message comes after it. -/
theorem events_last_success (a : String) (as : List String)
    (out tmp : String) (hs : Bool) :
    (merge_audio_files (a :: as) out hs true
      SubprocessOutcome.success tmp).events.getLast? =
      some (Event.progress 1) := by
  cases hs <;> rfl

/-- C3 counterexample: with source file `song1.mp3` and a tool failure whose
stderr is empty, the raised error's message is exactly "ffmpeg error: ",
which does not contain the offending file's name — the code adds no file
name of its own. -/
theorem error_does_not_name_offending_file :
    (merge_audio_files ["song1.mp3"] "out.mp3" false false
        (SubprocessOutcome.calledProcessError "") "list.txt").outcome =
      Except.error (MergeError.valueError ("ffmpeg error: " ++ "")) ∧
    ¬ ("song1.mp3".data <:+: ("ffmpeg error: " ++ "").data) :=
  ⟨rfl, by decide⟩

/-- C3 amended: a failure of the external tool aborts the whole merge — the
call raises and never yields an output path — and the error carries the
tool's stderr after the fixed prefix "ffmpeg error: "; the offending source
file is identified only insofar as the tool's own stderr names it. -/
theorem tool_failure_aborts_whole_merge (fp : List String)
    (out tmp stderr : String) (hs hp : Bool) (h : fp ≠ []) :
    (merge_audio_files fp out hs hp
        (SubprocessOutcome.calledProcessError stderr) tmp).outcome =
      Except.error (MergeError.valueError ("ffmpeg error: " ++ stderr)) ∧
    (∀ res : String,
      (merge_audio_files fp out hs hp
        (SubprocessOutcome.calledProcessError stderr) tmp).outcome ≠
        Except.ok res) ∧
    (∃ pre : String, "ffmpeg error: " ++ stderr = pre ++ stderr) := by
  cases fp with
  | nil => exact absurd rfl h
  | cons a as =>
    refine ⟨rfl, ?_, ⟨"ffmpeg error: ", rfl⟩⟩
    intro res hres
    exact Except.noConfusion hres

theorem tool_failure_aborts_whole_merge_witness :
    ["bad.ogg"] ≠ ([] : List String) ∧
    ((merge_audio_files ["bad.ogg"] "out.mp3" true true
        (SubprocessOutcome.calledProcessError "decode failed") "list.txt").outcome =
      Except.error (MergeError.valueError ("ffmpeg error: " ++ "decode failed")) ∧
    (∀ res : String,
      (merge_audio_files ["bad.ogg"] "out.mp3" true true
        (SubprocessOutcome.calledProcessError "decode failed") "list.txt").outcome ≠
        Except.ok res) ∧
    (∃ pre : String,
      "ffmpeg error: " ++ "decode failed" = pre ++ "decode failed")) :=
  ⟨by decide, tool_failure_aborts_whole_merge ["bad.ogg"] "out.mp3" "list.txt"
    "decode failed" true true (by decide)⟩

/-- C4 counterexample: on a concrete successful merge with a progress
callback supplied, the emitted fraction sequence is 0.1, 0.3, 0.9, 1.0 —
it never includes 0.0, so it does not span 0.0 to 1.0 inclusive. -/
theorem progress_never_reaches_zero :
    progressSeq (merge_audio_files ["a.mp3"] "out.mp3" true true
      SubprocessOutcome.success "list.txt") = [1/10, 3/10, 9/10, 1] ∧
    (0 : ℚ) ∉ progressSeq (merge_audio_files ["a.mp3"] "out.mp3" true true
      SubprocessOutcome.success "list.txt") := by
  refine ⟨progressSeq_cons_success "a.mp3" [] "out.mp3" "list.txt" true, ?_⟩
  rw [progressSeq_cons_success]
  norm_num

/-- C4 amended: progress fractions are non-decreasing and lie in
[0.1, 1.0] — the sequence starts at 0.1, not 0.0; on success it is exactly
0.1, 0.3, 0.9, 1.0, with 1.0 emitted as the final callback event after the
subprocess has completed (so after the output file is written and closed),
and no status message is observed after it. -/
theorem progress_monotone_within_bounds (fp : List String) (out tmp : String)
    (hs : Bool) (env : SubprocessOutcome) (h : fp ≠ []) :
    List.Chain' (· ≤ ·)
      (progressSeq (merge_audio_files fp out hs true env tmp)) ∧
    (∀ q ∈ progressSeq (merge_audio_files fp out hs true env tmp),
      (1 : ℚ)/10 ≤ q ∧ q ≤ 1) ∧
    (env = SubprocessOutcome.success →
      progressSeq (merge_audio_files fp out hs true env tmp) =
        [1/10, 3/10, 9/10, 1] ∧
      (merge_audio_files fp out hs true env tmp).events.getLast? =
        some (Event.progress 1)) := by
  cases fp with
  | nil => exact absurd rfl h
  | cons a as =>
    cases env with
    | success =>
      refine ⟨?_, ?_, fun _ =>
        ⟨progressSeq_cons_success a as out tmp hs,
         events_last_success a as out tmp hs⟩⟩
      · rw [progressSeq_cons_success]
        norm_num [List.chain'_cons]
      · rw [progressSeq_cons_success]
        intro q hq
        simp only [List.mem_cons, List.not_mem_nil, or_false] at hq
        rcases hq with rfl | rfl | rfl | rfl <;> constructor <;> norm_num
    | calledProcessError stderr =>
      refine ⟨?_, ?_, ?_⟩
      · rw [progressSeq_cons_cpe]
        norm_num [List.chain'_cons]
      · rw [progressSeq_cons_cpe]
        intro q hq
        simp only [List.mem_cons, List.not_mem_nil, or_false] at hq
        rcases hq with rfl | rfl <;> constructor <;> norm_num
      · intro he
        exact SubprocessOutcome.noConfusion he
    | fileNotFound =>
      refine ⟨?_, ?_, ?_⟩
      · rw [progressSeq_cons_fnf]
        norm_num [List.chain'_cons]
      · rw [progressSeq_cons_fnf]
        intro q hq
        simp only [List.mem_cons, List.not_mem_nil, or_false] at hq
        rcases hq with rfl | rfl <;> constructor <;> norm_num
      · intro he
        exact SubprocessOutcome.noConfusion he

theorem progress_monotone_within_bounds_witness :
    ["a.mp3"] ≠ ([] : List String) ∧
    (List.Chain' (· ≤ ·)
      (progressSeq (merge_audio_files ["a.mp3"] "out.mp3" true true
        SubprocessOutcome.success "list.txt")) ∧
    (∀ q ∈ progressSeq (merge_audio_files ["a.mp3"] "out.mp3" true true
        SubprocessOutcome.success "list.txt"),
      (1 : ℚ)/10 ≤ q ∧ q ≤ 1) ∧
    (SubprocessOutcome.success = SubprocessOutcome.success →
      progressSeq (merge_audio_files ["a.mp3"] "out.mp3" true true
        SubprocessOutcome.success "list.txt") = [1/10, 3/10, 9/10, 1] ∧
      (merge_audio_files ["a.mp3"] "out.mp3" true true
        SubprocessOutcome.success "list.txt").events.getLast? =
        some (Event.progress 1))) :=
  ⟨by decide, progress_monotone_within_bounds ["a.mp3"] "out.mp3" "list.txt"
    true SubprocessOutcome.success (by decide)⟩
